import Mathlib

/-!
Verification of the MySQL performance monitor pipeline (`src/app/main.py`).

The two core functions are shallowly embedded here:

* `get_mysql_status_custom` (the health prober, `main.py` lines 76–159):
  the MySQL driver is modelled by a `DBBehavior` record giving, for each of
  the nine queries executed by the prober, either a driver error
  (`pymysql.MySQLError`, modelled as `Except.error`) or an optional fetched
  row value.  The prober returns the report dictionary (an association list
  mirroring the Python dict literal) together with a `ResTrace` recording
  which of `connection`/`cursor` were opened and closed on that execution
  path.  The Python `try/except pymysql.MySQLError` block is embedded as a
  match on the `Except` results: the first failing step short-circuits to
  the `except` branch.

* `send_to_telex` (the dispatcher, `main.py` lines 162–209): the HTTP layer
  is modelled by a `NetBehavior` function returning either a transport error
  (an exception raised by `requests.post`) or the decoded JSON response.
  The dispatcher returns the list of POSTs it performed together with an
  `Except` describing its own outcome: `Except.error` models an uncaught
  Python exception escaping `send_to_telex` (the function body contains no
  `try`/`except`).  The read of the module-global `current_payload` is made
  explicit: `send_to_telex` receives the global's current value as the
  argument `g`, and `monitor_task`'s assignment to the global is the
  explicit state update `monitor_task_set`.
-/

namespace MySQLMonitor

/-- A value stored in the report dict: the Python code stores strings and,
under the `"tables"` key, a list of strings. -/
inductive Val where
  | str (s : String)
  | strList (l : List String)
deriving DecidableEq, Repr

/-- The report dictionary returned by `get_mysql_status_custom`
(a Python `dict` with string keys, embedded as an association list in
insertion order). -/
abbrev Report := List (String × Val)

/-- Dictionary lookup on a report. -/
def Report.lookup (r : Report) (k : String) : Option Val :=
  List.lookup k r

/-- Outcome of a single `cursor.execute(...)​; cursor.fetchone()` pair:
either a driver error (`pymysql.MySQLError`) carrying its message, or the
optional row (`None` when the query returned no row), reduced to the single
column value the prober reads from it. -/
abbrev QueryRes := Except String (Option String)

/-- The behaviour of the MySQL server/driver for one probe, query by query,
in the order `get_mysql_status_custom` issues them (`main.py` 103–137).
`connect` is the outcome of `pymysql.connect`; `tables` is the outcome of
`SHOW TABLES; fetchall()`, reduced to the first column of each row. -/
structure DBBehavior where
  connect : Except String Unit
  version : QueryRes
  dbname : QueryRes
  uptime : QueryRes
  slow_queries : QueryRes
  threads_connected : QueryRes
  connections : QueryRes
  open_conn : QueryRes
  qcache_hits : QueryRes
  tables : Except String (List String)

/-- The row values the nine queries produced, when all of them succeeded. -/
structure Metrics where
  version : Option String
  dbname : Option String
  uptime : Option String
  slow_queries : Option String
  threads_connected : Option String
  connections : Option String
  open_conn : Option String
  qcache_hits : Option String
  tables : List String
deriving DecidableEq, Repr

/-- The query phase of the prober (`main.py` 103–138): the nine queries are
executed in source order, and the first driver error aborts the rest
(Python exception propagation to the `except` clause). -/
def queryPhase (db : DBBehavior) : Except String Metrics := do
  let version ← db.version
  let dbname ← db.dbname
  let uptime ← db.uptime
  let slow_queries ← db.slow_queries
  let threads_connected ← db.threads_connected
  let connections ← db.connections
  let open_conn ← db.open_conn
  let qcache_hits ← db.qcache_hits
  let tables ← db.tables
  pure ⟨version, dbname, uptime, slow_queries, threads_connected,
        connections, open_conn, qcache_hits, tables⟩

/-- Which resources the probe opened and closed on a given execution path. -/
structure ResTrace where
  connOpened : Bool
  connClosed : Bool
  cursorOpened : Bool
  cursorClosed : Bool
deriving DecidableEq, Repr

/-- The success-shaped report dict (`main.py` 143–154), in the insertion
order of the Python dict literal; a missing row maps to `"Unknown"`. -/
def successReport (m : Metrics) : Report :=
  [ ("version", .str (m.version.getD "Unknown")),
    ("dbname", .str (m.dbname.getD "Unknown")),
    ("tables", .strList m.tables),
    ("uptime", .str (m.uptime.getD "Unknown")),
    ("slow_queries", .str (m.slow_queries.getD "Unknown")),
    ("threads_connected", .str (m.threads_connected.getD "Unknown")),
    ("connections", .str (m.connections.getD "Unknown")),
    ("open_conn", .str (m.open_conn.getD "Unknown")),
    ("qcache_hits", .str (m.qcache_hits.getD "Unknown")),
    ("status", .str "success") ]

/-- The failure-shaped report dict (`main.py` 156–159). -/
def failureReport (e : String) : Report :=
  [ ("error", .str e), ("status", .str "failure") ]

/-- The prober `get_mysql_status_custom` (`main.py` 76–159).  Returns the report and
the resource trace of the path taken.  Note the Python source closes
`cursor` and `connection` only on the straight-line success path (lines
140–141); there is no `finally`/`with`, so a driver error after a
successful connect leaves both open. -/
def get_mysql_status_custom (db : DBBehavior) : Report × ResTrace :=
  match db.connect with
  | .error e => (failureReport e, ⟨false, false, false, false⟩)
  | .ok _ =>
    match queryPhase db with
    | .error e => (failureReport e, ⟨true, false, true, false⟩)
    | .ok m => (successReport m, ⟨true, true, true, true⟩)

/-- The keys of the eight scalar metrics of the spec's HealthReport. -/
def metricKeys : List String :=
  [ "version", "dbname", "uptime", "slow_queries", "threads_connected",
    "connections", "open_conn", "qcache_hits" ]

/-- A report is success-shaped: status `"success"`, all eight metric keys
present with string values, and no `"error"` key. -/
def SuccessShape (r : Report) : Prop :=
  r.lookup "status" = some (.str "success") ∧
  (∀ k ∈ metricKeys, ∃ s, r.lookup k = some (.str s)) ∧
  r.lookup "error" = none

/-- A report is failure-shaped: status `"failure"`, an `"error"` key, and
none of the eight metric keys. -/
def FailureShape (r : Report) : Prop :=
  r.lookup "status" = some (.str "failure") ∧
  (∃ e, r.lookup "error" = some (.str e)) ∧
  ∀ k ∈ metricKeys, r.lookup k = none

/-- One integration setting (`class Setting`, `main.py` 42–55). -/
structure Setting where
  label : String
  type : String
  required : Bool
  default : String
deriving DecidableEq, Repr

/-- The trigger payload (`class MonitorPayload`, `main.py` 58–69). -/
structure MonitorPayload where
  channel_id : String
  return_url : String
  settings : List Setting
deriving DecidableEq, Repr

/-- Setting lookup `next(s.default for s in p.settings if s.label == l)`
(`main.py` 173–180); `none` models the `StopIteration` raised when no
setting has the label. -/
def getSetting (p : MonitorPayload) (l : String) : Option String :=
  (p.settings.find? (fun s => s.label == l)).map (·.default)

/-- Metric lookup `mysql_status.get(k, 'N/A')` as used inside the message
f-string (`main.py` 186–194). For the keys this is used on, the probe only
ever stores `Val.str` values, so the `Val.strList` branch is unreachable
there. -/
def getMetric (r : Report) (k : String) : String :=
  match r.lookup k with
  | some (.str s) => s
  | some (.strList l) => String.intercalate ", " l
  | none => "N/A"

/-- Table-list lookup `mysql_status.get('tables', [])` (`main.py` 188). -/
def getTables (r : Report) : List String :=
  match r.lookup "tables" with
  | some (.strList l) => l
  | _ => []

/-- The message f-string of the dispatch payload (`main.py` 184–195),
rendered segment by segment exactly as the source interpolates it. -/
def renderMessage (r : Report) : String :=
  "MySQL Server Health Status:\n" ++
  "Version: " ++ getMetric r "version" ++ "\n" ++
  "Database Name: " ++ getMetric r "dbname" ++ "\n" ++
  "Available Tables: " ++ String.intercalate ", " (getTables r) ++ "\n" ++
  "Uptime: " ++ getMetric r "uptime" ++ " seconds\n" ++
  "Slow Queries: " ++ getMetric r "slow_queries" ++ "\n" ++
  "Threads Connected: " ++ getMetric r "threads_connected" ++ "\n" ++
  "Total Connections: " ++ getMetric r "connections" ++ "\n" ++
  "Current Open Connections: " ++ getMetric r "open_conn" ++ "\n" ++
  "Query Cache Hits: " ++ getMetric r "qcache_hits" ++ "\n"

/-- The dispatch payload dict (`main.py` 182–198). -/
structure DispatchEnvelope where
  event_name : String
  message : String
  status : String
  username : String
deriving DecidableEq, Repr

/-- Builds the dispatch payload from the probe report (`main.py` 182–198).
`none` models the `KeyError` raised by `mysql_status["status"]` when the
report carries no string `"status"` entry (unreachable for probe outputs).
-/
def buildPayload (r : Report) : Option DispatchEnvelope :=
  match r.lookup "status" with
  | some (.str s) =>
    some ⟨"MySQL Server Health Check", renderMessage r, s, "MySQL Monitor"⟩
  | _ => none

/-- The headers of the outbound POST (`main.py` 203–206). -/
def telexHeaders : List (String × String) :=
  [ ("Accept", "application/json"), ("Content-Type", "application/json") ]

/-- One outbound `requests.post` call: destination URL, JSON body, headers.
-/
structure PostRecord where
  url : String
  body : DispatchEnvelope
  headers : List (String × String)
deriving DecidableEq, Repr

/-- The behaviour of the HTTP layer: for a given URL and JSON body,
`requests.post` either raises a transport error (`Except.error`, e.g. the
destination is unreachable) or yields a response whose decoded JSON is the
given string. -/
abbrev NetBehavior := String → DispatchEnvelope → Except String String

/-- The parameter-dependent behaviour of the MySQL driver: what
`pymysql.connect(host, user, password, database)` and the subsequent
queries do for each choice of connection parameters. -/
abbrev DBEnv := String → String → String → String → DBBehavior

/-- The dispatcher `send_to_telex` (`main.py` 162–209).  `g` is the value of the
module-global `current_payload` at the time of the call — the source reads
`current_payload.settings` directly rather than taking the connection
parameters as arguments; only `webhook_url` is a parameter.  Returns the
POSTs performed and the function's outcome; `Except.error` models an
uncaught Python exception escaping `send_to_telex` (its body has no
`try`/`except`, so a `requests` transport error propagates). -/
def send_to_telex (env : DBEnv) (net : NetBehavior) (g : MonitorPayload)
    (webhook_url : String) : List PostRecord × Except String String :=
  match getSetting g "MySQL Host", getSetting g "MySQL User",
        getSetting g "MySQL Password", getSetting g "MySQL Database" with
  | some host, some user, some password, some database =>
    let mysql_status := (get_mysql_status_custom (env host user password database)).1
    match buildPayload mysql_status with
    | some payload =>
      ([⟨webhook_url, payload, telexHeaders⟩], net webhook_url payload)
    | none => ([], .error "KeyError: status")
  | _, _, _, _ => ([], .error "StopIteration")

/-- The assignment `current_payload = payload` performed by `monitor_task`
(`main.py` 219–221) on the module-global slot. -/
def monitor_task_set (_g : Option MonitorPayload) (p : MonitorPayload) :
    Option MonitorPayload :=
  some p

/-- The dispatch step of `monitor_task` (`main.py` 222): `send_to_telex`
runs against whatever the global `current_payload` holds at that moment.
`none` (the global still unset) models the `AttributeError` raised by
`current_payload.settings`. -/
def dispatch_step (env : DBEnv) (net : NetBehavior)
    (g : Option MonitorPayload) (url : String) :
    List PostRecord × Except String String :=
  match g with
  | some gp => send_to_telex env net gp url
  | none => ([], .error "AttributeError: NoneType")

/-- The POSTs sent by an invocation with payload `p` running alone:
`monitor_task` sets the global to `p` and immediately dispatches. -/
def soloDispatch (env : DBEnv) (net : NetBehavior) (p : MonitorPayload) :
    List PostRecord :=
  (dispatch_step env net (monitor_task_set none p) p.return_url).1

/-- The POSTs sent by invocation A when invocation B's global assignment
lands between A's assignment and A's dispatch (trace:
`current_payload = pA`; `current_payload = pB`; A's `send_to_telex`).
A's dispatch then reads B's settings from the global. -/
def interleavedDispatchA (env : DBEnv) (net : NetBehavior)
    (pA pB : MonitorPayload) : List PostRecord :=
  (dispatch_step env net (monitor_task_set (monitor_task_set none pA) pB)
    pA.return_url).1

/-- Splits a character list at newline characters; models the line
structure of the rendered message. -/
def splitLines : List Char → List (List Char)
  | [] => [[]]
  | c :: rest =>
    if c = '\n' then [] :: splitLines rest
    else
      match splitLines rest with
      | [] => [[c]]
      | l :: ls => (c :: l) :: ls

/-- The string `sub` occurs inside `msg` as a contiguous substring. -/
def StrContains (msg sub : String) : Prop :=
  sub.toList <:+: msg.toList

/-- One rendered metric line of the message, per label (`main.py`
186–194); used to state which lines the message provably contains. -/
def lineVersion (v : String) : String := "Version: " ++ v ++ "\n"

/-- The database-name line of the message. -/
def lineDbname (d : String) : String := "Database Name: " ++ d ++ "\n"

/-- The table-list line of the message. -/
def lineTables (ts : List String) : String :=
  "Available Tables: " ++ String.intercalate ", " ts ++ "\n"

/-- The uptime line of the message. -/
def lineUptime (u : String) : String := "Uptime: " ++ u ++ " seconds\n"

/-- The slow-queries line of the message. -/
def lineSlow (s : String) : String := "Slow Queries: " ++ s ++ "\n"

/-- The threads-connected line of the message. -/
def lineThreads (t : String) : String := "Threads Connected: " ++ t ++ "\n"

/-- The total-connections line of the message. -/
def lineTotalConn (c : String) : String := "Total Connections: " ++ c ++ "\n"

/-- The open-connections line of the message. -/
def lineOpenConn (o : String) : String :=
  "Current Open Connections: " ++ o ++ "\n"

/-- The query-cache-hits line of the message. -/
def lineQcache (q : String) : String := "Query Cache Hits: " ++ q ++ "\n"

/-- A driver behaviour where connecting succeeds and every query succeeds
with no row (and `SHOW TABLES` returns no rows). -/
def dbAllEmpty : DBBehavior :=
  ⟨.ok (), .ok none, .ok none, .ok none, .ok none, .ok none, .ok none,
   .ok none, .ok none, .ok []⟩

/-- The metrics produced by `dbAllEmpty`. -/
def emptyMetrics : Metrics :=
  ⟨none, none, none, none, none, none, none, none, []⟩

/-- A concrete driver error message for a failed `pymysql.connect`. -/
def connFailMsg : String := "2003: cannot connect to MySQL server on host"

/-- A concrete driver error message for a query failing mid-probe. -/
def queryFailMsg : String :=
  "2013: lost connection to MySQL server during query"

/-- A behaviour where `pymysql.connect` itself raises. -/
def dbConnFail : DBBehavior :=
  { dbAllEmpty with connect := .error connFailMsg }

/-- A behaviour where the connection succeeds and the first query
(`SELECT VERSION()`) raises a driver error. -/
def dbQueryFail : DBBehavior :=
  { dbAllEmpty with version := .error queryFailMsg }

/-- The success metrics of the spec's worked example. -/
def exMetrics : Metrics :=
  ⟨some "8.0.32", some "test_db", some "3600", some "0", some "5",
   some "100", some "3", some "50", ["table1", "table2"]⟩

/-- Builds a trigger payload carrying the four MySQL settings. -/
def mkPayload (hostv userv pwv dbv urlv chan : String) : MonitorPayload :=
  ⟨chan, urlv,
   [ ⟨"MySQL Host", "text", true, hostv⟩,
     ⟨"MySQL User", "text", true, userv⟩,
     ⟨"MySQL Password", "text", true, pwv⟩,
     ⟨"MySQL Database", "text", true, dbv⟩ ]⟩

/-- Invocation A's payload. -/
def payloadA : MonitorPayload :=
  mkPayload "db-a.example" "monitor" "pw" "proddb" "https://hooks.example/a"
    "ch-1"

/-- A payload with the same four MySQL settings as `payloadA` but a
different channel id. -/
def payloadA2 : MonitorPayload :=
  mkPayload "db-a.example" "monitor" "pw" "proddb" "https://hooks.example/a"
    "ch-2"

/-- Invocation B's payload: a different MySQL host. -/
def payloadB : MonitorPayload :=
  mkPayload "db-b.example" "monitor" "pw" "proddb" "https://hooks.example/b"
    "ch-3"

/-- A driver environment whose reported server version depends on the host
connected to; all other queries return no row. -/
def envByHost : DBEnv :=
  fun host _ _ _ => { dbAllEmpty with version := .ok (some ("v-" ++ host)) }

/-- A network where every POST succeeds. -/
def netOk : NetBehavior := fun _ _ => .ok "ok"

/-- A network where the destination is unreachable: `requests.post` raises
a transport error. -/
def netDown : NetBehavior := fun _ _ => .error "Connection refused"

lemma toList_append (a b : String) : (a ++ b).toList = a.toList ++ b.toList :=
  String.data_append a b

lemma strContains_self (a : String) : StrContains a a :=
  ⟨[], [], by simp⟩

lemma strContains_left (a b : String) : StrContains (a ++ b) a :=
  ⟨[], b.toList, by simp [toList_append]⟩

lemma strContains_right_of (a b sub : String) (h : StrContains b sub) :
    StrContains (a ++ b) sub := by
  obtain ⟨s, t, hst⟩ := h
  exact ⟨a.toList ++ s, t, by rw [toList_append, ← hst]; simp⟩

lemma getMetric_success_version (m : Metrics) :
    getMetric (successReport m) "version" = m.version.getD "Unknown" := rfl

lemma getMetric_success_dbname (m : Metrics) :
    getMetric (successReport m) "dbname" = m.dbname.getD "Unknown" := rfl

lemma getMetric_success_uptime (m : Metrics) :
    getMetric (successReport m) "uptime" = m.uptime.getD "Unknown" := rfl

lemma getMetric_success_slow (m : Metrics) :
    getMetric (successReport m) "slow_queries" =
      m.slow_queries.getD "Unknown" := rfl

lemma getMetric_success_threads (m : Metrics) :
    getMetric (successReport m) "threads_connected" =
      m.threads_connected.getD "Unknown" := rfl

lemma getMetric_success_connections (m : Metrics) :
    getMetric (successReport m) "connections" =
      m.connections.getD "Unknown" := rfl

lemma getMetric_success_open_conn (m : Metrics) :
    getMetric (successReport m) "open_conn" =
      m.open_conn.getD "Unknown" := rfl

lemma getMetric_success_qcache (m : Metrics) :
    getMetric (successReport m) "qcache_hits" =
      m.qcache_hits.getD "Unknown" := rfl

lemma getTables_success (m : Metrics) :
    getTables (successReport m) = m.tables := rfl

lemma successReport_shape (m : Metrics) : SuccessShape (successReport m) := by
  refine ⟨rfl, ?_, rfl⟩
  intro k hk
  simp only [metricKeys, List.mem_cons, List.not_mem_nil, or_false] at hk
  rcases hk with rfl | rfl | rfl | rfl | rfl | rfl | rfl | rfl <;>
    exact ⟨_, rfl⟩

lemma failureReport_shape (e : String) : FailureShape (failureReport e) := by
  refine ⟨rfl, ⟨e, rfl⟩, ?_⟩
  intro k hk
  simp only [metricKeys, List.mem_cons, List.not_mem_nil, or_false] at hk
  rcases hk with rfl | rfl | rfl | rfl | rfl | rfl | rfl | rfl <;> rfl

lemma probe_of_connect_error (db : DBBehavior) (e : String)
    (h : db.connect = Except.error e) :
    get_mysql_status_custom db =
      (failureReport e, ⟨false, false, false, false⟩) := by
  unfold get_mysql_status_custom
  rw [h]

lemma probe_of_query_error (db : DBBehavior) (e : String)
    (hc : db.connect = Except.ok ()) (hq : queryPhase db = Except.error e) :
    get_mysql_status_custom db =
      (failureReport e, ⟨true, false, true, false⟩) := by
  unfold get_mysql_status_custom
  rw [hc, hq]

lemma probe_of_query_ok (db : DBBehavior) (m : Metrics)
    (hc : db.connect = Except.ok ()) (hq : queryPhase db = Except.ok m) :
    get_mysql_status_custom db =
      (successReport m, ⟨true, true, true, true⟩) := by
  unfold get_mysql_status_custom
  rw [hc, hq]

lemma buildPayload_probe (db : DBBehavior) :
    ∃ s, Report.lookup (get_mysql_status_custom db).1 "status" =
        some (.str s) ∧
      buildPayload (get_mysql_status_custom db).1 =
        some ⟨"MySQL Server Health Check",
              renderMessage (get_mysql_status_custom db).1, s,
              "MySQL Monitor"⟩ := by
  unfold get_mysql_status_custom
  cases db.connect with
  | error e => exact ⟨"failure", rfl, rfl⟩
  | ok u =>
    cases queryPhase db with
    | error e => exact ⟨"failure", rfl, rfl⟩
    | ok m => exact ⟨"success", rfl, rfl⟩

lemma renderMessage_success_eq (m : Metrics) :
    renderMessage (successReport m) =
      "MySQL Server Health Status:\n" ++
      (lineVersion (m.version.getD "Unknown") ++
      (lineDbname (m.dbname.getD "Unknown") ++
      (lineTables m.tables ++
      (lineUptime (m.uptime.getD "Unknown") ++
      (lineSlow (m.slow_queries.getD "Unknown") ++
      (lineThreads (m.threads_connected.getD "Unknown") ++
      (lineTotalConn (m.connections.getD "Unknown") ++
      (lineOpenConn (m.open_conn.getD "Unknown") ++
      lineQcache (m.qcache_hits.getD "Unknown"))))))))) := by
  simp only [renderMessage, lineVersion, lineDbname, lineTables, lineUptime,
    lineSlow, lineThreads, lineTotalConn, lineOpenConn, lineQcache,
    getMetric_success_version, getMetric_success_dbname,
    getMetric_success_uptime, getMetric_success_slow,
    getMetric_success_threads, getMetric_success_connections,
    getMetric_success_open_conn, getMetric_success_qcache,
    getTables_success, String.append_assoc]

/-- C1: every report returned by `get_mysql_status_custom` is one of
exactly two shapes — success-shaped (status `"success"`, all eight metric
keys present with string values, no `"error"` key) or failure-shaped
(status `"failure"`, an `"error"` key, no metric keys) — never a partial
mix, for every driver behaviour. -/
theorem C1_report_shape_dichotomy (db : DBBehavior) :
    SuccessShape (get_mysql_status_custom db).1 ∨
    FailureShape (get_mysql_status_custom db).1 := by
  unfold get_mysql_status_custom
  cases db.connect with
  | error e => exact Or.inr (failureReport_shape e)
  | ok u =>
    cases queryPhase db with
    | error e => exact Or.inr (failureReport_shape e)
    | ok m => exact Or.inl (successReport_shape m)

/-- C2: whenever the driver raises — at `pymysql.connect` or during any of
the queries — `get_mysql_status_custom` returns (it is a total function,
so no exception escapes) a failure report whose `"error"` field holds the
non-empty driver message and which contains no metric fields. -/
theorem C2_driver_error_yields_failure_report (db : DBBehavior) (e : String)
    (herr : db.connect = Except.error e ∨
      (db.connect = Except.ok () ∧ queryPhase db = Except.error e))
    (hne : e ≠ "") :
    (get_mysql_status_custom db).1 = failureReport e ∧
    Report.lookup (get_mysql_status_custom db).1 "status" =
      some (.str "failure") ∧
    Report.lookup (get_mysql_status_custom db).1 "error" = some (.str e) ∧
    e ≠ "" ∧
    ∀ k ∈ metricKeys, Report.lookup (get_mysql_status_custom db).1 k = none := by
  have hrep : (get_mysql_status_custom db).1 = failureReport e := by
    rcases herr with h | ⟨h1, h2⟩
    · rw [probe_of_connect_error db e h]
    · rw [probe_of_query_error db e h1 h2]
  rw [hrep]
  exact ⟨rfl, rfl, rfl, hne, (failureReport_shape e).2.2⟩

/-- C2 witness: a concrete connection failure. -/
theorem C2_witness :
    (get_mysql_status_custom dbConnFail).1 = failureReport connFailMsg ∧
    Report.lookup (get_mysql_status_custom dbConnFail).1 "status" =
      some (.str "failure") ∧
    Report.lookup (get_mysql_status_custom dbConnFail).1 "error" =
      some (.str connFailMsg) ∧
    connFailMsg ≠ "" ∧
    ∀ k ∈ metricKeys,
      Report.lookup (get_mysql_status_custom dbConnFail).1 k = none :=
  C2_driver_error_yields_failure_report dbConnFail connFailMsg (Or.inl rfl)
    (by decide)

/-- C3: when the connection succeeds and every query completes, a query
that returned no row yields the string `"Unknown"` in its report field —
for each of the eight metrics — and the report status is still
`"success"`. -/
theorem C3_missing_row_maps_to_Unknown (db : DBBehavior) (m : Metrics)
    (hc : db.connect = Except.ok ()) (hq : queryPhase db = Except.ok m) :
    Report.lookup (get_mysql_status_custom db).1 "status" =
      some (.str "success") ∧
    (m.version = none →
      Report.lookup (get_mysql_status_custom db).1 "version" =
        some (.str "Unknown")) ∧
    (m.dbname = none →
      Report.lookup (get_mysql_status_custom db).1 "dbname" =
        some (.str "Unknown")) ∧
    (m.uptime = none →
      Report.lookup (get_mysql_status_custom db).1 "uptime" =
        some (.str "Unknown")) ∧
    (m.slow_queries = none →
      Report.lookup (get_mysql_status_custom db).1 "slow_queries" =
        some (.str "Unknown")) ∧
    (m.threads_connected = none →
      Report.lookup (get_mysql_status_custom db).1 "threads_connected" =
        some (.str "Unknown")) ∧
    (m.connections = none →
      Report.lookup (get_mysql_status_custom db).1 "connections" =
        some (.str "Unknown")) ∧
    (m.open_conn = none →
      Report.lookup (get_mysql_status_custom db).1 "open_conn" =
        some (.str "Unknown")) ∧
    (m.qcache_hits = none →
      Report.lookup (get_mysql_status_custom db).1 "qcache_hits" =
        some (.str "Unknown")) := by
  have hrep : (get_mysql_status_custom db).1 = successReport m :=
    congrArg Prod.fst (probe_of_query_ok db m hc hq)
  rw [hrep]
  refine ⟨rfl, ?_, ?_, ?_, ?_, ?_, ?_, ?_, ?_⟩ <;>
    · intro h
      simp only [successReport, Report.lookup, h]
      rfl

/-- C3 witness: a probe where every query succeeds but returns no row
still reports success, with `"Unknown"` in the metric fields. -/
theorem C3_witness :
    Report.lookup (get_mysql_status_custom dbAllEmpty).1 "status" =
      some (.str "success") ∧
    Report.lookup (get_mysql_status_custom dbAllEmpty).1 "version" =
      some (.str "Unknown") :=
  ⟨(C3_missing_row_maps_to_Unknown dbAllEmpty emptyMetrics rfl rfl).1,
   (C3_missing_row_maps_to_Unknown dbAllEmpty emptyMetrics rfl rfl).2.1 rfl⟩

/-- C4 counterexample: when the first query raises after a successful
connect, the source closes neither the cursor nor the connection (there is
no `finally` block around `main.py` 100–141), so the claim that both are
closed on every execution path is false at this input. -/
theorem C4_counterexample :
    (get_mysql_status_custom dbQueryFail).2.connOpened = true ∧
    (get_mysql_status_custom dbQueryFail).2.cursorOpened = true ∧
    (get_mysql_status_custom dbQueryFail).2.connClosed = false ∧
    (get_mysql_status_custom dbQueryFail).2.cursorClosed = false :=
  ⟨rfl, rfl, rfl, rfl⟩

/-- C4 amended: the cursor and connection are closed before returning on
the success path only; when the connection itself fails nothing was
opened, and when a query raises after a successful connect both the
connection and cursor are left open. -/
theorem C4_amended_close_only_on_success (db : DBBehavior) :
    (Report.lookup (get_mysql_status_custom db).1 "status" =
        some (.str "success") →
      (get_mysql_status_custom db).2 = ⟨true, true, true, true⟩) ∧
    ((∃ e, db.connect = Except.error e) →
      (get_mysql_status_custom db).2 = ⟨false, false, false, false⟩) ∧
    (db.connect = Except.ok () → (∃ e, queryPhase db = Except.error e) →
      (get_mysql_status_custom db).2 = ⟨true, false, true, false⟩) := by
  cases hc : db.connect with
  | error e =>
    refine ⟨?_, fun _ => ?_, ?_⟩
    · intro hs
      rw [probe_of_connect_error db e hc] at hs
      exact absurd (Option.some.inj hs) (by decide)
    · rw [probe_of_connect_error db e hc]
    · exact fun h1 => Except.noConfusion h1
  | ok u =>
    cases u
    cases hq : queryPhase db with
    | error e =>
      refine ⟨?_, ?_, fun _ _ => ?_⟩
      · intro hs
        rw [probe_of_query_error db e hc hq] at hs
        exact absurd (Option.some.inj hs) (by decide)
      · rintro ⟨e', he'⟩
        exact Except.noConfusion he'
      · rw [probe_of_query_error db e hc hq]
    | ok m =>
      refine ⟨fun _ => ?_, ?_, fun _ h => ?_⟩
      · rw [probe_of_query_ok db m hc hq]
      · rintro ⟨e', he'⟩
        exact Except.noConfusion he'
      · obtain ⟨e', he'⟩ := h
        exact Except.noConfusion he'

/-- C4 amended witness: the three paths at concrete driver behaviours. -/
theorem C4_amended_witness :
    (get_mysql_status_custom dbAllEmpty).2 = ⟨true, true, true, true⟩ ∧
    (get_mysql_status_custom dbConnFail).2 = ⟨false, false, false, false⟩ ∧
    (get_mysql_status_custom dbQueryFail).2 = ⟨true, false, true, false⟩ :=
  ⟨(C4_amended_close_only_on_success dbAllEmpty).1 rfl,
   (C4_amended_close_only_on_success dbConnFail).2.1 ⟨connFailMsg, rfl⟩,
   (C4_amended_close_only_on_success dbQueryFail).2.2 rfl ⟨queryFailMsg, rfl⟩⟩

set_option maxRecDepth 40000 in
/-- C5 counterexample: for the failure report with error text `"boom"`,
the rendered message does not contain `"boom"` — the f-string of
`main.py` 184–195 only interpolates the metric keys, which are absent in a
failure report and fall back to `"N/A"` — refuting the claim that the
message includes the raw error string. -/
theorem C5_counterexample :
    Report.lookup (failureReport "boom") "status" = some (.str "failure") ∧
    Report.lookup (failureReport "boom") "error" = some (.str "boom") ∧
    ¬ StrContains (renderMessage (failureReport "boom")) "boom" :=
  ⟨rfl, rfl, by unfold StrContains; decide⟩

/-- C5 amended: for a failure-shaped report the rendered message is a
fixed placeholder template — every metric slot reads `"N/A"` and the
error text does not appear in it at all; the failure is communicated only
through the envelope's mirrored `"failure"` status. -/
theorem C5_amended_failure_message_is_placeholder (e : String) :
    renderMessage (failureReport e) =
      "MySQL Server Health Status:\nVersion: N/A\nDatabase Name: N/A\nAvailable Tables: \nUptime: N/A seconds\nSlow Queries: N/A\nThreads Connected: N/A\nTotal Connections: N/A\nCurrent Open Connections: N/A\nQuery Cache Hits: N/A\n" ∧
    (buildPayload (failureReport e)).map DispatchEnvelope.status =
      some "failure" :=
  ⟨rfl, rfl⟩

/-- C6: the rendered message of a success report pairs every metric label
with that metric's value, one per line, in the documented query order
(version, database name, tables, uptime, slow queries, threads connected,
total connections, open connections, query-cache hits); on the spec's
worked example the message splits into exactly those lines, containing
`"Version: 8.0.32"` and `"Database Name: test_db"` each as a line of its
own. -/
theorem C6_message_lines_in_order :
    (∀ m : Metrics,
      StrContains (renderMessage (successReport m))
        (lineVersion (m.version.getD "Unknown")) ∧
      StrContains (renderMessage (successReport m))
        (lineDbname (m.dbname.getD "Unknown")) ∧
      StrContains (renderMessage (successReport m))
        (lineUptime (m.uptime.getD "Unknown")) ∧
      StrContains (renderMessage (successReport m))
        (lineSlow (m.slow_queries.getD "Unknown")) ∧
      StrContains (renderMessage (successReport m))
        (lineThreads (m.threads_connected.getD "Unknown")) ∧
      StrContains (renderMessage (successReport m))
        (lineTotalConn (m.connections.getD "Unknown")) ∧
      StrContains (renderMessage (successReport m))
        (lineOpenConn (m.open_conn.getD "Unknown")) ∧
      StrContains (renderMessage (successReport m))
        (lineQcache (m.qcache_hits.getD "Unknown"))) ∧
    splitLines (renderMessage (successReport exMetrics)).toList =
      [ "MySQL Server Health Status:".toList,
        "Version: 8.0.32".toList,
        "Database Name: test_db".toList,
        "Available Tables: table1, table2".toList,
        "Uptime: 3600 seconds".toList,
        "Slow Queries: 0".toList,
        "Threads Connected: 5".toList,
        "Total Connections: 100".toList,
        "Current Open Connections: 3".toList,
        "Query Cache Hits: 50".toList,
        [] ] ∧
    "Version: 8.0.32".toList ∈
      splitLines (renderMessage (successReport exMetrics)).toList ∧
    "Database Name: test_db".toList ∈
      splitLines (renderMessage (successReport exMetrics)).toList := by
  refine ⟨?_, by decide, by decide, by decide⟩
  intro m
  rw [renderMessage_success_eq m]
  refine ⟨?_, ?_, ?_, ?_, ?_, ?_, ?_, ?_⟩
  · exact strContains_right_of _ _ _ (strContains_left _ _)
  · exact strContains_right_of _ _ _ (strContains_right_of _ _ _
      (strContains_left _ _))
  · exact strContains_right_of _ _ _ (strContains_right_of _ _ _
      (strContains_right_of _ _ _ (strContains_right_of _ _ _
      (strContains_left _ _))))
  · exact strContains_right_of _ _ _ (strContains_right_of _ _ _
      (strContains_right_of _ _ _ (strContains_right_of _ _ _
      (strContains_right_of _ _ _ (strContains_left _ _)))))
  · exact strContains_right_of _ _ _ (strContains_right_of _ _ _
      (strContains_right_of _ _ _ (strContains_right_of _ _ _
      (strContains_right_of _ _ _ (strContains_right_of _ _ _
      (strContains_left _ _))))))
  · exact strContains_right_of _ _ _ (strContains_right_of _ _ _
      (strContains_right_of _ _ _ (strContains_right_of _ _ _
      (strContains_right_of _ _ _ (strContains_right_of _ _ _
      (strContains_right_of _ _ _ (strContains_left _ _)))))))
  · exact strContains_right_of _ _ _ (strContains_right_of _ _ _
      (strContains_right_of _ _ _ (strContains_right_of _ _ _
      (strContains_right_of _ _ _ (strContains_right_of _ _ _
      (strContains_right_of _ _ _ (strContains_right_of _ _ _
      (strContains_left _ _))))))))
  · exact strContains_right_of _ _ _ (strContains_right_of _ _ _
      (strContains_right_of _ _ _ (strContains_right_of _ _ _
      (strContains_right_of _ _ _ (strContains_right_of _ _ _
      (strContains_right_of _ _ _ (strContains_right_of _ _ _
      (strContains_right_of _ _ _ (strContains_self _)))))))))

/-- C7 counterexample: with an unreachable destination, `send_to_telex`
still performs its single POST attempt, but the transport error raised by
`requests.post` escapes the function (its body has no `try`/`except`,
`main.py` 200–209), refuting the claim that no exception propagates out of
the dispatcher. -/
theorem C7_counterexample :
    (send_to_telex envByHost netDown payloadA "https://hooks.example/a").1.length = 1 ∧
    (send_to_telex envByHost netDown payloadA "https://hooks.example/a").2 =
      Except.error "Connection refused" :=
  ⟨rfl, rfl⟩

/-- C7 amended: whenever the global payload resolves the four MySQL
settings, `send_to_telex` performs exactly one POST to the destination
URL, carrying the envelope with both the `Accept` and `Content-Type`
JSON headers; its outcome is exactly the network's outcome, so a
transport error propagates out of the dispatcher uncaught. -/
theorem C7_amended_one_post_error_escapes
    (env : DBEnv) (net : NetBehavior) (g : MonitorPayload) (url : String)
    (host user password database : String)
    (h1 : getSetting g "MySQL Host" = some host)
    (h2 : getSetting g "MySQL User" = some user)
    (h3 : getSetting g "MySQL Password" = some password)
    (h4 : getSetting g "MySQL Database" = some database) :
    ∃ pl : DispatchEnvelope,
      (send_to_telex env net g url).1 = [⟨url, pl, telexHeaders⟩] ∧
      ("Accept", "application/json") ∈ telexHeaders ∧
      ("Content-Type", "application/json") ∈ telexHeaders ∧
      (send_to_telex env net g url).2 = net url pl := by
  obtain ⟨s, _, hbp⟩ := buildPayload_probe (env host user password database)
  refine ⟨⟨"MySQL Server Health Check",
    renderMessage (get_mysql_status_custom (env host user password database)).1,
    s, "MySQL Monitor"⟩, ?_, by simp [telexHeaders], by simp [telexHeaders], ?_⟩ <;>
    simp only [send_to_telex, h1, h2, h3, h4, hbp]

/-- C7 amended witness: one POST with the JSON headers at a concrete
payload, environment and reachable network. -/
theorem C7_amended_witness :
    ∃ pl : DispatchEnvelope,
      (send_to_telex envByHost netOk payloadA "https://hooks.example/a").1 =
        [⟨"https://hooks.example/a", pl, telexHeaders⟩] ∧
      ("Accept", "application/json") ∈ telexHeaders ∧
      ("Content-Type", "application/json") ∈ telexHeaders ∧
      (send_to_telex envByHost netOk payloadA "https://hooks.example/a").2 =
        netOk "https://hooks.example/a" pl :=
  C7_amended_one_post_error_escapes envByHost netOk payloadA
    "https://hooks.example/a" "db-a.example" "monitor" "pw" "proddb"
    rfl rfl rfl rfl

/-- C8 counterexample: the dispatcher reads the module-global
`current_payload`, so when invocation B's assignment to the global lands
between invocation A's assignment and A's dispatch, A sends a different
envelope (B's MySQL host is probed) than it does running alone — the
outcome is not a function of A's own invocation parameters. -/
theorem C8_counterexample :
    soloDispatch envByHost netOk payloadA ≠
      interleavedDispatchA envByHost netOk payloadA payloadB := by
  unfold soloDispatch interleavedDispatchA
  decide

/-- C8 amended: `send_to_telex` receives only the webhook URL of its own
invocation; the connection parameters come from the value the global
`current_payload` holds at dispatch time, and the dispatch outcome is a
function of that global value — two dispatches observing globals with
identical MySQL settings behave identically, while an interleaved
reassignment of the global changes the envelope (see the counterexample).
-/
theorem C8_amended_dispatch_reads_global
    (env : DBEnv) (net : NetBehavior) (g g' : MonitorPayload) (url : String)
    (h1 : getSetting g "MySQL Host" = getSetting g' "MySQL Host")
    (h2 : getSetting g "MySQL User" = getSetting g' "MySQL User")
    (h3 : getSetting g "MySQL Password" = getSetting g' "MySQL Password")
    (h4 : getSetting g "MySQL Database" = getSetting g' "MySQL Database") :
    send_to_telex env net g url = send_to_telex env net g' url := by
  simp only [send_to_telex, h1, h2, h3, h4]

/-- C8 amended witness: two globals with the same MySQL settings but
different channel ids yield the same dispatch. -/
theorem C8_amended_witness :
    send_to_telex envByHost netOk payloadA "https://hooks.example/a" =
      send_to_telex envByHost netOk payloadA2 "https://hooks.example/a" :=
  C8_amended_dispatch_reads_global envByHost netOk payloadA payloadA2
    "https://hooks.example/a" rfl rfl rfl rfl

/-- C9: for every probe report, the dispatch envelope exists and is a
deterministic function of the report: event name is the constant
`"MySQL Server Health Check"`, username the constant `"MySQL Monitor"`,
message the rendered report, and status is mirrored from the report's
status field. -/
theorem C9_envelope_constants_and_status_mirror (db : DBBehavior) :
    ∃ envl : DispatchEnvelope,
      buildPayload (get_mysql_status_custom db).1 = some envl ∧
      envl.event_name = "MySQL Server Health Check" ∧
      envl.username = "MySQL Monitor" ∧
      envl.message = renderMessage (get_mysql_status_custom db).1 ∧
      Report.lookup (get_mysql_status_custom db).1 "status" =
        some (.str envl.status) := by
  obtain ⟨s, hst, hbp⟩ := buildPayload_probe db
  exact ⟨_, hbp, rfl, rfl, rfl, hst⟩

/-- C10: a successful probe's report carries the ninth field `"tables"`
holding the table names fetched by `SHOW TABLES` (issued after the eight
metric queries, as the last step of `queryPhase`), and the rendered
message contains the corresponding `"Available Tables:"` line. -/
theorem C10_tables_field_and_message_line (db : DBBehavior) (m : Metrics)
    (hc : db.connect = Except.ok ()) (hq : queryPhase db = Except.ok m) :
    Report.lookup (get_mysql_status_custom db).1 "tables" =
      some (.strList m.tables) ∧
    Report.lookup (get_mysql_status_custom db).1 "status" =
      some (.str "success") ∧
    StrContains (renderMessage (get_mysql_status_custom db).1)
      (lineTables m.tables) := by
  have hrep : (get_mysql_status_custom db).1 = successReport m :=
    congrArg Prod.fst (probe_of_query_ok db m hc hq)
  rw [hrep]
  refine ⟨rfl, rfl, ?_⟩
  rw [renderMessage_success_eq m]
  exact strContains_right_of _ _ _ (strContains_right_of _ _ _
    (strContains_right_of _ _ _ (strContains_left _ _)))

/-- C10 witness: the worked example's table list appears in the report and
the message. -/
theorem C10_witness :
    Report.lookup (get_mysql_status_custom dbAllEmpty).1 "tables" =
      some (.strList emptyMetrics.tables) ∧
    Report.lookup (get_mysql_status_custom dbAllEmpty).1 "status" =
      some (.str "success") ∧
    StrContains (renderMessage (get_mysql_status_custom dbAllEmpty).1)
      (lineTables emptyMetrics.tables) :=
  C10_tables_field_and_message_line dbAllEmpty emptyMetrics rfl rfl

end MySQLMonitor
